import Mathlib

/-!
Verification of the pySOMweb client library (`somweb/client.py`,
`somweb/httpclient.py`, `somweb/models.py`, `somweb/const.py`).

The Python client is shallowly embedded: each HTTP exchange is represented
by the response the transport would deliver (`Option HttpResponse`, where
`none` models a transport exception such as a connection error or timeout),
exceptions are modelled with `Except PyErr`, and the mutable session fields
`__current_token` / `__current_page_content` are modelled as an explicit
`ClientState` threaded through the operations.

The regular expressions from `const.py` are embedded as executable
backtracking matchers (greedy and lazy star, literal, character classes)
that follow the semantics of Python's `re` module on the fixed patterns the
client uses (`.` does not match a newline; `re.MULTILINE` only affects
anchors, which these patterns do not use).
-/

namespace Somweb

/-- Python exceptions that the embedded code can raise. -/
inductive PyErr where
  | attributeError
  | assertionError
  | typeError
  | transportError
  deriving DecidableEq

/-- Decidable equality for `Except`, so the embedded operations can be
evaluated on concrete inputs. -/
instance [DecidableEq ε] [DecidableEq α] : DecidableEq (Except ε α) := fun x y =>
  match x, y with
  | Except.error e, Except.error f =>
    if h : e = f then isTrue (by rw [h]) else isFalse (fun hh => h (by injection hh))
  | Except.error _, Except.ok _ => isFalse (fun hh => Except.noConfusion hh)
  | Except.ok _, Except.error _ => isFalse (fun hh => Except.noConfusion hh)
  | Except.ok a, Except.ok b =>
    if h : a = b then isTrue (by rw [h]) else isFalse (fun hh => h (by injection hh))

/-- An HTTP response as observed by `HttpClient`: transport status code and
body text (`response.status` and `await response.text()`). -/
structure HttpResponse where
  status : Nat
  body : String
  deriving DecidableEq

/-- `DoorStatusType` from `models.py`. -/
inductive DoorStatusType where
  | OPEN
  | CLOSED
  | UNKNOWN
  deriving DecidableEq

/-- `DoorActionType` from `models.py`. -/
inductive DoorActionType where
  | CLOSE
  | OPEN
  deriving DecidableEq

/-- `AuthResponse` from `models.py`: `(success, token, page_content)`. -/
structure AuthResponse where
  success : Bool
  token : Option String
  page_content : Option String
  deriving DecidableEq

/-- `Door` from `models.py`. -/
structure Door where
  id : Nat
  name : String
  deriving DecidableEq

/-- `DeviceInfo` from `models.py`.  The wifi fields are annotated `int` in
the Python source but actually receive the optional strings produced by
`get_value_using_regex`, so they are embedded as `Option String`. -/
structure DeviceInfo where
  remote_access_enabled : Bool
  firmware_version : Option String
  ip_address : Option String
  wifi_signal_quality : Option String
  wifi_signal_level : Option String
  wifi_signal_unit : Option String
  time_zone : Option String
  deriving DecidableEq

/-- The mutable session fields of `SomwebClient`.

`current_token` models `__current_token`, which `__init__` assigns `None`
(modelled `none`) and `async_authenticate` overwrites with the extraction
result.

`current_page_content` models `__current_page_content`.  That attribute is
only *annotated* at class level and is never assigned in `__init__`, so it
can be in three states: never assigned (reading it raises
`AttributeError`), assigned Python `None`, or assigned a string.  These are
modelled as `none`, `some none`, and `some (some s)` respectively. -/
structure ClientState where
  current_token : Option String
  current_page_content : Option (Option String)
  deriving DecidableEq

/-- The state of a freshly constructed `SomwebClient`:
`__current_token = None`, `__current_page_content` never assigned. -/
def initState : ClientState := ⟨none, none⟩

/-! ## Backtracking matchers for the fixed patterns of `const.py`

Matchers are written in continuation-passing style over `List Char`: a
combinator consumes part of the input and hands the rest to the
continuation; greedy constructs try the longest consumption first and
backtrack, lazy constructs try the continuation first. -/

/-- Python `\s` character class: `[ \t\n\r\f\v]`. -/
def isSpaceChar (c : Char) : Bool :=
  c = ' ' || c = '\t' || c = '\n' || c = '\r' || c = '\x0b' || c = '\x0c'

/-- Python `\w` character class (ASCII range): `[A-Za-z0-9_]`. -/
def isWordChar (c : Char) : Bool :=
  c.isAlphanum || c = '_'

/-- Regex `.` with the default flags: any character except a newline. -/
def isDotChar (c : Char) : Bool :=
  c != '\n'

/-- Character class `[0-9a-fA-F]` used by `RE_UDI`. -/
def isHexChar (c : Char) : Bool :=
  c.isDigit || ('a' ≤ c && c ≤ 'f') || ('A' ≤ c && c ≤ 'F')

/-- Character class `[\s\w-]` used by `RE_DOORS`. -/
def isClassChar (c : Char) : Bool :=
  isSpaceChar c || isWordChar c || c = '-'

/-- Character class `[\w\s]` used by `RE_DOORS`. -/
def isNameChar (c : Char) : Bool :=
  isWordChar c || isSpaceChar c

/-- Match a literal character sequence, then continue. -/
def lit : List Char → (List Char → Option α) → List Char → Option α
  | [], k, s => k s
  | _ :: _, _, [] => none
  | p :: ps, k, c :: cs => if c = p then lit ps k cs else none

/-- Match a literal character sequence case-insensitively (`re.I`). -/
def litCI : List Char → (List Char → Option α) → List Char → Option α
  | [], k, s => k s
  | _ :: _, _, [] => none
  | p :: ps, k, c :: cs => if c.toLower = p.toLower then litCI ps k cs else none

/-- Greedy star: consume as many `p` characters as possible, backtracking
one at a time when the continuation fails. -/
def starG (p : Char → Bool) (k : List Char → Option α) : List Char → Option α
  | [] => k []
  | c :: cs =>
    if p c then
      match starG p k cs with
      | some r => some r
      | none => k (c :: cs)
    else k (c :: cs)

/-- Greedy plus: one `p` character, then `starG`. -/
def plusG (p : Char → Bool) (k : List Char → Option α) : List Char → Option α
  | [] => none
  | c :: cs => if p c then starG p k cs else none

/-- Greedy capturing star: like `starG` but the consumed characters are
accumulated and passed to the continuation. -/
def starGCap (p : Char → Bool) (k : List Char → List Char → Option α)
    (acc : List Char) : List Char → Option α
  | [] => k acc []
  | c :: cs =>
    if p c then
      match starGCap p k (acc ++ [c]) cs with
      | some r => some r
      | none => k acc (c :: cs)
    else k acc (c :: cs)

/-- Greedy capturing plus: one `p` character, then `starGCap`. -/
def plusGCap (p : Char → Bool) (k : List Char → List Char → Option α) :
    List Char → Option α
  | [] => none
  | c :: cs => if p c then starGCap p k [c] cs else none

/-- Lazy star (`*?`): try the continuation first, consuming a `p` character
only when it fails. -/
def starL (p : Char → Bool) (k : List Char → Option α) : List Char → Option α
  | [] => k []
  | c :: cs =>
    match k (c :: cs) with
    | some r => some r
    | none => if p c then starL p k cs else none

/-- Lazy capturing star (`(...*?)`). -/
def starLCap (p : Char → Bool) (k : List Char → List Char → Option α)
    (acc : List Char) : List Char → Option α
  | [] => k acc []
  | c :: cs =>
    match k acc (c :: cs) with
    | some r => some r
    | none => if p c then starLCap p k (acc ++ [c]) cs else none

/-- Match exactly one `p` character. -/
def chr (p : Char → Bool) (k : List Char → Option α) : List Char → Option α
  | [] => none
  | c :: cs => if p c then k cs else none

/-- Match and capture exactly one `p` character. -/
def chrCap (p : Char → Bool) (k : List Char → List Char → Option α) :
    List Char → Option α
  | [] => none
  | c :: cs => if p c then k [c] cs else none

/-- Greedy option (`?`): try consuming one `p` character first. -/
def optG (p : Char → Bool) (k : List Char → Option α) : List Char → Option α
  | [] => k []
  | c :: cs =>
    if p c then
      match k cs with
      | some r => some r
      | none => k (c :: cs)
    else k (c :: cs)

/-- `-?\d+` with the sign included in the capture (the `level` group of
`RE_WIFI_SIGNAL`). -/
def signDigitsCap (k : List Char → List Char → Option α) : List Char → Option α :=
  fun s =>
    match s with
    | '-' :: cs =>
      match plusGCap Char.isDigit (fun ds => k ('-' :: ds)) cs with
      | some r => some r
      | none => plusGCap Char.isDigit k s
    | _ => plusGCap Char.isDigit k s

/-- `re.search`: try the match at each successive start position
(leftmost match wins). -/
def searchAux (m : List Char → Option α) : List Char → Option α
  | [] => m []
  | c :: cs =>
    match m (c :: cs) with
    | some r => some r
    | none => searchAux m cs

/-- `re.finditer` worker: repeatedly search, resuming after each match.
The fuel bounds the number of matches; every pattern used with it consumes
at least one character per match, so `length + 1` fuel is enough. -/
def finditerAux (m : List Char → Option (β × List Char)) :
    Nat → List Char → List β
  | 0, _ => []
  | fuel + 1, s =>
    match searchAux m s with
    | none => []
    | some (b, rest) => b :: finditerAux m fuel rest

/-- `re.finditer` over a character list. -/
def finditer (m : List Char → Option (β × List Char)) (s : List Char) : List β :=
  finditerAux m (s.length + 1) s

/-- `\s*=\s*`, a separator shared by several patterns. -/
def eqSep (k : List Char → Option α) : List Char → Option α :=
  starG isSpaceChar (lit "=".data (starG isSpaceChar k))

/-- Python `int(...)` on a digits-only capture. -/
def digitsToNat (ds : List Char) : Nat :=
  ds.foldl (fun n c => n * 10 + (c.toNat - 48)) 0

/-! ## The concrete patterns of `const.py` -/

/-- Match of `RE_WEBTOKEN` at the current position:
`<\s*input\s+id\s*=\s*"webtoken".*value="(?P<webtoken>\w+)".*\/>`,
returning the `webtoken` group. -/
def matchWebtokenAt : List Char → Option String :=
  lit "<".data (starG isSpaceChar (lit "input".data (plusG isSpaceChar
    (lit "id".data (eqSep (lit "\"webtoken\"".data (starG isDotChar
      (lit "value=\"".data (plusGCap isWordChar (fun cap =>
        lit "\"".data (starG isDotChar (lit "/>".data (fun _ =>
          some (String.mk cap))))))))))))))

/-- `SomwebClient.__extract_web_token`: `RE_WEBTOKEN.search` on the HTML
content, returning the `webtoken` group when a match exists. -/
def extract_web_token (html_content : String) : Option String :=
  searchAux matchWebtokenAt html_content.data

/-- Match of `RE_UDI` at the current position:
`<meta name="UDI" content="(?P<udi>[0-9a-fA-F]+)" />`,
returning the `udi` group. -/
def matchUdiAt : List Char → Option String :=
  lit "<meta name=\"UDI\" content=\"".data (plusGCap isHexChar (fun cap =>
    lit "\" />".data (fun _ => some (String.mk cap))))

/-- `RE_UDI.search` over a page. -/
def re_udi_search (content : String) : Option String :=
  searchAux matchUdiAt content.data

/-- Match of `RE_USER_IS_ADMIN` at the current position:
`<a href=".*?index.php\?op=config"` (the dot in `index.php` is an
unescaped regex dot). -/
def matchAdminAt : List Char → Option Unit :=
  lit "<a href=\"".data (starL isDotChar (lit "index".data (chr isDotChar
    (lit "php?op=config\"".data (fun _ => some ())))))

/-- Whether `RE_USER_IS_ADMIN.search` finds a match in the page. -/
def re_user_is_admin_matches (content : String) : Bool :=
  (searchAux matchAdminAt content.data).isSome

/-- Match of `RE_DOORS` at the current position:
`<\s*input\s+type\s*=\s*"submit"\s+class\s*=\s*"tab-door[\s\w-]*"\s+name\s*=\s*"tab-door\d+"\s+id\s*=\s*"tab-door(?P<id>\d+)"\s+value="(?P<name>[\w\s]+)"\s*\/?>`,
returning `Door(int(id), name)` and the rest of the input after the
match (`finditer` resumes there). -/
def matchDoorAt : List Char → Option (Door × List Char) :=
  let pValue : List Char → List Char → Option (Door × List Char) := fun idCap =>
    lit "\"".data (plusG isSpaceChar (lit "value=\"".data
      (plusGCap isNameChar (fun nameCap =>
        lit "\"".data (starG isSpaceChar (optG (fun c => c = '/')
          (lit ">".data (fun rest =>
            some (⟨digitsToNat idCap, String.mk nameCap⟩, rest)))))))))
  let pId : List Char → Option (Door × List Char) :=
    lit "\"tab-door".data (plusGCap Char.isDigit pValue)
  let pName : List Char → Option (Door × List Char) :=
    lit "\"tab-door".data (plusG Char.isDigit (lit "\"".data
      (plusG isSpaceChar (lit "id".data (eqSep pId)))))
  let pClass : List Char → Option (Door × List Char) :=
    lit "\"tab-door".data (starG isClassChar (lit "\"".data
      (plusG isSpaceChar (lit "name".data (eqSep pName)))))
  let pType : List Char → Option (Door × List Char) :=
    lit "\"submit\"".data (plusG isSpaceChar (lit "class".data (eqSep pClass)))
  lit "<".data (starG isSpaceChar (lit "input".data (plusG isSpaceChar
    (lit "type".data (eqSep pType)))))

/-- Match at the current position of the shared shape of
`RE_FIRMWARE_VERSION`, `RE_IP_ADDRESS` and `RE_TIME_ZONE`
(`label<\/div>\s*?<\/div>\s*?<div class=".*?">\s*?<div class=".*?">(.*?)<\/div>`
with `re.I`), returning the captured group. -/
def matchInfoFieldAt (label : List Char) : List Char → Option String :=
  litCI label (litCI "</div>".data (starL isSpaceChar (litCI "</div>".data
    (starL isSpaceChar (litCI "<div class=\"".data (starL isDotChar
      (litCI "\">".data (starL isSpaceChar (litCI "<div class=\"".data
        (starL isDotChar (litCI "\">".data (starLCap isDotChar (fun cap =>
          litCI "</div>".data (fun _ => some (String.mk cap))) []))))))))))))

/-- `RE_FIRMWARE_VERSION.search`. -/
def re_firmware_version_search (content : String) : Option String :=
  searchAux (matchInfoFieldAt "Firmware version:".data) content.data

/-- `RE_IP_ADDRESS.search`. -/
def re_ip_address_search (content : String) : Option String :=
  searchAux (matchInfoFieldAt "IP Address:".data) content.data

/-- `RE_TIME_ZONE.search`. -/
def re_time_zone_search (content : String) : Option String :=
  searchAux (matchInfoFieldAt "Time zone:".data) content.data

/-- Match of `RE_REMOTE_ACCESS` at the current position; identical in shape
to `matchInfoFieldAt` except that the whitespace before the second
`<div class="` is a greedy `\s*`. -/
def matchRemoteAccessAt : List Char → Option String :=
  litCI "Remote Access:</div>".data (starL isSpaceChar (litCI "</div>".data
    (starL isSpaceChar (litCI "<div class=\"".data (starL isDotChar
      (litCI "\">".data (starG isSpaceChar (litCI "<div class=\"".data
        (starL isDotChar (litCI "\">".data (starLCap isDotChar (fun cap =>
          litCI "</div>".data (fun _ => some (String.mk cap))) [])))))))))))

/-- `RE_REMOTE_ACCESS.search`. -/
def re_remote_access_search (content : String) : Option String :=
  searchAux matchRemoteAccessAt content.data

/-- Match of `RE_WIFI_SIGNAL` at the current position:
`WiFi signal level:<\/div>\s*?<\/div>\s*?<div class=".*?">\s*?<div class=".*?">\s*<div class=.*?wifi-signal-(?P<quality>\d).*?">(?P<level>-?\d+) (?P<unit>.*?)<\/div>`
with `re.I`, returning the `(quality, level, unit)` groups. -/
def matchWifiAt : List Char → Option (String × String × String) :=
  let pUnit : List Char → List Char → List Char → List Char →
      Option (String × String × String) := fun q l u =>
    litCI "</div>".data (fun _ => some (String.mk q, String.mk l, String.mk u))
  let pLevel : List Char → List Char → List Char →
      Option (String × String × String) := fun q l =>
    lit " ".data (starLCap isDotChar (fun u => pUnit q l u) [])
  let pQuality : List Char → List Char → Option (String × String × String) :=
    fun q =>
    starL isDotChar (litCI "\">".data (signDigitsCap (fun l => pLevel q l)))
  let pInner : List Char → Option (String × String × String) :=
    starG isSpaceChar (litCI "<div class=".data (starL isDotChar
      (litCI "wifi-signal-".data (chrCap Char.isDigit (fun q => pQuality q)))))
  let pDiv2 : List Char → Option (String × String × String) :=
    starL isSpaceChar (litCI "<div class=\"".data (starL isDotChar
      (litCI "\">".data pInner)))
  let pDiv1 : List Char → Option (String × String × String) :=
    starL isSpaceChar (litCI "<div class=\"".data (starL isDotChar
      (litCI "\">".data pDiv2)))
  litCI "WiFi signal level:</div>".data (starL isSpaceChar
    (litCI "</div>".data pDiv1))

/-- `RE_WIFI_SIGNAL.search`, all three groups at once
(`async_get_device_info` reads the three groups of the same match). -/
def re_wifi_signal_search (content : String) : Option (String × String × String) :=
  searchAux matchWifiAt content.data

/-! ## Transport adapter (`httpclient.py`)

`HttpClient.async_get` and `HttpClient.async_post` take the response the
transport would deliver (`none` models an `aiohttp` exception: connection
error or timeout).  Both methods contain `assert response.status < 400`,
so a delivered response with a non-success status makes them raise
`AssertionError`; they re-raise every exception to the caller. -/

/-- `HttpClient.async_get`. -/
def HttpClient_async_get (resp : Option HttpResponse) : Except PyErr HttpResponse :=
  match resp with
  | none => .error .transportError
  | some r => if 400 > r.status then .ok r else .error .assertionError

/-- `HttpClient.async_post`: same body as `async_get` except for the form
data, which does not influence the observable behaviour modelled here. -/
def HttpClient_async_post (resp : Option HttpResponse) : Except PyErr HttpResponse :=
  match resp with
  | none => .error .transportError
  | some r => if 400 > r.status then .ok r else .error .assertionError

/-! ## `SomwebClient` operations (`client.py`) -/

/-- `SomwebClient.__door_status_types` together with Python dict `.get`
with default: `{"OK": CLOSED, "FAIL": OPEN}.get(body, UNKNOWN)`. -/
def door_status_types_get (body : String) : DoorStatusType :=
  if body = "OK" then DoorStatusType.CLOSED
  else if body = "FAIL" then DoorStatusType.OPEN
  else DoorStatusType.UNKNOWN

/-- `SomwebClient.async_get_door_status`: issues the status-probe GET and
maps the body through `__door_status_types`.  The `if not 400 > response.status`
branch in the Python source only logs and falls through, so it has no
effect on the returned value; a non-success status or a transport error
never reaches it because `HttpClient.async_get` raises first, and
`async_get_door_status` has no exception handler, so the exception
propagates to the caller. -/
def async_get_door_status (probe : Option HttpResponse) : Except PyErr DoorStatusType :=
  match HttpClient_async_get probe with
  | .error e => .error e
  | .ok r => .ok (door_status_types_get r.body)

/-- The toggle GET request `/isg/opendoor.php?numdoor={id}&status=0&webtoken={token}`
as built by `async_toogle_door_position`; `webtoken` holds the f-string
rendering of the Python value interpolated into the URL. -/
structure ToggleRequest where
  numdoor : Nat
  webtoken : String
  deriving DecidableEq

/-- Python f-string rendering of an `Optional[str]`: `None` renders as the
literal string `"None"`. -/
def pyStr : Option String → String
  | none => "None"
  | some s => s

/-- `SomwebClient.async_toogle_door_position`: uses the explicitly supplied
token when present, otherwise the internally tracked `__current_token`;
issues the toggle GET and returns `400 > response.status and "OK" == body`.
The second component lists the toggle requests issued (always exactly one;
it is issued even when `HttpClient.async_get` subsequently raises). -/
def async_toogle_door_position (st : ClientState) (door_id : Nat)
    (token : Option String) (resp : Option HttpResponse) :
    Except PyErr Bool × List ToggleRequest :=
  let web_token : Option String :=
    match token with
    | some t => some t
    | none => st.current_token
  let req : ToggleRequest := ⟨door_id, pyStr web_token⟩
  match HttpClient_async_get resp with
  | .error e => (.error e, [req])
  | .ok r => (.ok (decide (400 > r.status ∧ r.body = "OK")), [req])

/-- The `door_action_to_status_switcher` dict of `async_door_action`:
`{CLOSE: CLOSED, OPEN: OPEN}` (total on `DoorActionType`, so `.get` never
returns the absent default). -/
def door_action_to_status_switcher : DoorActionType → DoorStatusType
  | DoorActionType.CLOSE => DoorStatusType.CLOSED
  | DoorActionType.OPEN => DoorStatusType.OPEN

/-- `SomwebClient.async_door_action`: computes the requested status, reads
the current status, and returns
`(current == requested) or (await async_toogle_door_position ...)`
(Python `or` short-circuits, so no toggle is issued when the statuses are
equal).  `probe` is the response to the status GET, `toggleResp` the
response to the toggle GET; the second component lists the toggle
requests issued. -/
def async_door_action (st : ClientState) (door_id : Nat)
    (door_action : DoorActionType) (token : Option String)
    (probe toggleResp : Option HttpResponse) :
    Except PyErr Bool × List ToggleRequest :=
  let requested_door_status := door_action_to_status_switcher door_action
  match async_get_door_status probe with
  | .error e => (.error e, [])
  | .ok current_door_status =>
    if current_door_status = requested_door_status then (.ok true, [])
    else async_toogle_door_position st door_id token toggleResp

/-- `SomwebClient.async_authenticate`: posts the credentials; on any
exception from `HttpClient.async_post` (transport failure, or the
`assert` on a non-success status) returns the empty `AuthResponse()` and
leaves the session state untouched.  On a delivered success response it
first stores the page content and the extraction result into the session
fields, then returns `AuthResponse(False, None, content)` when no token
was extracted and `AuthResponse(True, token, content)` otherwise.
(The `if not 400 > response.status` branch of the source is kept although
`HttpClient.async_post` makes it unreachable.) -/
def async_authenticate (st : ClientState) (post : Option HttpResponse) :
    AuthResponse × ClientState :=
  match HttpClient_async_post post with
  | .error _ => (⟨false, none, none⟩, st)
  | .ok response =>
    if ¬ 400 > response.status then (⟨false, none, none⟩, st)
    else
      let content := response.body
      let tok := extract_web_token content
      let st' : ClientState := ⟨tok, some (some content)⟩
      match tok with
      | none => (⟨false, none, some content⟩, st')
      | some t => (⟨true, some t, some content⟩, st')

/-- The `udi` property: reading `__current_page_content` raises
`AttributeError` when the attribute was never assigned; otherwise the
source returns `None` when the content is `None` and the `udi` group of
`RE_UDI.search` when it is a string. -/
def udi (st : ClientState) : Except PyErr (Option String) :=
  match st.current_page_content with
  | none => .error .attributeError
  | some none => .ok none
  | some (some content) => .ok (re_udi_search content)

/-- The `is_admin` property: reading `__current_page_content` raises
`AttributeError` when the attribute was never assigned; otherwise the
source returns `None` when the content is `None`, and
`False if match is None else True` for `RE_USER_IS_ADMIN.search` when it
is a string. -/
def is_admin (st : ClientState) : Except PyErr (Option Bool) :=
  match st.current_page_content with
  | none => .error .attributeError
  | some none => .ok none
  | some (some content) => .ok (some (re_user_is_admin_matches content))

/-- `SomwebClient.get_doors_from_page_content`:
`RE_DOORS.finditer` mapped to `Door(int(id), name)`. -/
def get_doors_from_page_content (page_content : String) : List Door :=
  finditer matchDoorAt page_content.data

/-- `SomwebClient.get_doors`: parses `__current_page_content`; raises
`AttributeError` when the attribute was never assigned, and `TypeError`
(from `finditer(None)`) when it holds Python `None`. -/
def get_doors (st : ClientState) : Except PyErr (List Door) :=
  match st.current_page_content with
  | none => .error .attributeError
  | some none => .error .typeError
  | some (some content) => .ok (get_doors_from_page_content content)

/-- `CHECK_DOOR_STATE_INTERVAL` from `const.py`: seconds between polls. -/
def CHECK_DOOR_STATE_INTERVAL : Nat := 2

/-- `DEFAULT_DOOR_STATE_CHANGE_TIMEOUT` from `const.py`: seconds. -/
def DEFAULT_DOOR_STATE_CHANGE_TIMEOUT : Nat := 60

/-- The inner `async_wait_for_state_loop` of `async_wait_for_door_state`:
poll number `k` (taken at time `k * CHECK_DOOR_STATE_INTERVAL` seconds
into the wait) yields `poll k`; the loop exits as soon as a poll equals
the awaited state.  `budget` is the number of polls that begin before
`asyncio.wait_for` cancels the loop at the timeout; when it is exhausted
the wait ends in `asyncio.TimeoutError`, modelled by `false`. -/
def async_wait_for_state_loop (poll : Nat → DoorStatusType)
    (state : DoorStatusType) : Nat → Nat → Bool
  | _, 0 => false
  | k, budget + 1 =>
    if poll k = state then true
    else async_wait_for_state_loop poll state (k + 1) budget

/-- `SomwebClient.async_wait_for_door_state`: runs the polling loop under
`asyncio.wait_for`; returns `True` when the loop finishes (a poll matched
the awaited state) and catches `asyncio.TimeoutError` to return `False`. -/
def async_wait_for_door_state (poll : Nat → DoorStatusType)
    (state : DoorStatusType) (budget : Nat) : Bool :=
  async_wait_for_state_loop poll state 0 budget

/-- `SomwebClient.async_get_device_info`: inside a `try` that converts any
exception into `None`, it first evaluates `self.is_admin == False` and
returns `None` without any request when the comparison is true (an
`AttributeError` from `is_admin` on a fresh client is likewise caught
before the GET line is reached); then it issues the device-info GET,
returns `None` on a status other than 200, and otherwise extracts each
`DeviceInfo` field independently.  The second component counts the
device-info GET requests issued. -/
def async_get_device_info (st : ClientState) (get : Option HttpResponse) :
    Option DeviceInfo × Nat :=
  match is_admin st with
  | .error _ => (none, 0)
  | .ok v =>
    if v = some false then (none, 0)
    else
      match HttpClient_async_get get with
      | .error _ => (none, 1)
      | .ok r =>
        if r.status ≠ 200 then (none, 1)
        else
          (some
            { remote_access_enabled := re_remote_access_search r.body = some "ENABLED"
              firmware_version := re_firmware_version_search r.body
              ip_address := re_ip_address_search r.body
              wifi_signal_quality := (re_wifi_signal_search r.body).map (fun g => g.1)
              wifi_signal_level := (re_wifi_signal_search r.body).map (fun g => g.2.1)
              wifi_signal_unit := (re_wifi_signal_search r.body).map (fun g => g.2.2)
              time_zone := re_time_zone_search r.body }, 1)

/-- The session states reachable through the client API.
`async_authenticate` is the only operation of `SomwebClient` that writes
`__current_token` or `__current_page_content`; every other operation only
reads them. -/
inductive Reachable : ClientState → Prop
  | init : Reachable initState
  | auth (st : ClientState) (post : Option HttpResponse) :
      Reachable st → Reachable (async_authenticate st post).2

/-- In every reachable session state, `__current_page_content` is either
still unassigned or holds a string: no client operation ever assigns
Python `None` to it. -/
theorem reachable_content_ne_pynone (st : ClientState) (h : Reachable st) :
    st.current_page_content ≠ some none := by
  induction h with
  | init => intro hc; exact Option.noConfusion hc
  | auth st' post _ ih =>
    unfold async_authenticate
    cases hp : HttpClient_async_post post with
    | error e => simpa using ih
    | ok r =>
      by_cases hs : 400 > r.status
      · simp only [hs, not_true_eq_false, if_false]
        cases he : extract_web_token r.body <;> simp
      · simp only [hs, not_false_eq_true, if_true]
        exact ih

/-! ## Claims -/

/-- Claim C1: for every door id and action, `async_door_action` maps the
action to its target status (OPEN to OPEN, CLOSE to CLOSED) and queries
the current status; when the current status equals the target it returns
true having issued zero toggle requests, and otherwise it issues exactly
one toggle request and returns true exactly when the toggle response has
a success transport status (< 400) and body `"OK"`. -/
theorem C1_door_action_idempotent (st : ClientState) (door_id : Nat)
    (action : DoorActionType) (token : Option String)
    (probe toggleResp : Option HttpResponse) (current : DoorStatusType)
    (hprobe : async_get_door_status probe = Except.ok current) :
    door_action_to_status_switcher DoorActionType.OPEN = DoorStatusType.OPEN ∧
    door_action_to_status_switcher DoorActionType.CLOSE = DoorStatusType.CLOSED ∧
    (current = door_action_to_status_switcher action →
      async_door_action st door_id action token probe toggleResp =
        (Except.ok true, [])) ∧
    (current ≠ door_action_to_status_switcher action →
      (async_door_action st door_id action token probe toggleResp).2.length = 1 ∧
      ((async_door_action st door_id action token probe toggleResp).1 =
          Except.ok true ↔
        ∃ r, toggleResp = some r ∧ 400 > r.status ∧ r.body = "OK")) := by
  refine ⟨rfl, rfl, ?_, ?_⟩
  · intro heq
    simp [async_door_action, hprobe, heq]
  · intro hne
    have hact : async_door_action st door_id action token probe toggleResp =
        async_toogle_door_position st door_id token toggleResp := by
      simp [async_door_action, hprobe, hne]
    rw [hact]
    constructor
    · cases htr : HttpClient_async_get toggleResp <;>
        simp [async_toogle_door_position, htr]
    · cases toggleResp with
      | none => simp [async_toogle_door_position, HttpClient_async_get]
      | some r =>
        by_cases hs : 400 > r.status
        · simp [async_toogle_door_position, HttpClient_async_get, hs]
        · simp [async_toogle_door_position, HttpClient_async_get, hs]

/-- Witness for C1 at concrete inputs: closing a door whose status probe
answers `"OK"` (already closed) returns true with zero toggle requests. -/
theorem C1_witness :
    async_door_action initState 2 DoorActionType.CLOSE none
        (some ⟨200, "OK"⟩) (some ⟨200, "OK"⟩) = (Except.ok true, []) := by
  have h := C1_door_action_idempotent initState 2 DoorActionType.CLOSE none
    (some ⟨200, "OK"⟩) (some ⟨200, "OK"⟩) DoorStatusType.CLOSED rfl
  exact h.2.2.1 rfl

/-- Claim C2: once the status-probe response is delivered with a success
status, `async_get_door_status` returns CLOSED for body `"OK"`, OPEN for
body `"FAIL"`, and UNKNOWN for every other body; the result is always one
of those three statuses. -/
theorem C2_get_status_mapping (r : HttpResponse) (h : 400 > r.status) :
    async_get_door_status (some r) =
      Except.ok (if r.body = "OK" then DoorStatusType.CLOSED
        else if r.body = "FAIL" then DoorStatusType.OPEN
        else DoorStatusType.UNKNOWN) ∧
    (∀ s, async_get_door_status (some r) = Except.ok s →
      s = DoorStatusType.OPEN ∨ s = DoorStatusType.CLOSED ∨
        s = DoorStatusType.UNKNOWN) := by
  constructor
  · simp [async_get_door_status, HttpClient_async_get, h, door_status_types_get]
  · intro s _
    cases s
    · exact Or.inl rfl
    · exact Or.inr (Or.inl rfl)
    · exact Or.inr (Or.inr rfl)

/-- Witness for C2 at a concrete input: body `"FAIL"` yields OPEN. -/
theorem C2_witness :
    async_get_door_status (some ⟨200, "FAIL"⟩) = Except.ok DoorStatusType.OPEN := by
  have h := C2_get_status_mapping ⟨200, "FAIL"⟩ (by decide)
  simpa using h.1

/-- Claim C3: `async_authenticate` returns a failure result with no token
when the transport call fails or the HTTP status is not a success; when
the call succeeds but no token is extracted it returns success `false`
and no token but still carries the page content; and when a token is
extracted it stores both token and page content as the session state and
returns success `true` with both values. -/
theorem C3_authenticate_result (st : ClientState) (post : Option HttpResponse) :
    (post = none → async_authenticate st post = (⟨false, none, none⟩, st)) ∧
    (∀ r, post = some r → ¬ 400 > r.status →
      async_authenticate st post = (⟨false, none, none⟩, st)) ∧
    (∀ r, post = some r → 400 > r.status → extract_web_token r.body = none →
      async_authenticate st post =
        (⟨false, none, some r.body⟩, ⟨none, some (some r.body)⟩)) ∧
    (∀ r t, post = some r → 400 > r.status → extract_web_token r.body = some t →
      async_authenticate st post =
        (⟨true, some t, some r.body⟩, ⟨some t, some (some r.body)⟩)) := by
  refine ⟨?_, ?_, ?_, ?_⟩
  · rintro rfl
    rfl
  · rintro r rfl hs
    simp [async_authenticate, HttpClient_async_post, hs]
  · rintro r rfl hs he
    simp [async_authenticate, HttpClient_async_post, hs, he]
  · rintro r t rfl hs he
    simp [async_authenticate, HttpClient_async_post, hs, he]

/-- Witness for C3 at a concrete input: a success response whose body
contains a webtoken input element authenticates, stores token and page
content, and returns both. -/
theorem C3_witness :
    async_authenticate initState
        (some ⟨200, "<input id=\"webtoken\" value=\"TOK123\"/>"⟩) =
      (⟨true, some "TOK123", some "<input id=\"webtoken\" value=\"TOK123\"/>"⟩,
       ⟨some "TOK123", some (some "<input id=\"webtoken\" value=\"TOK123\"/>")⟩) := by
  have h := C3_authenticate_result initState
    (some ⟨200, "<input id=\"webtoken\" value=\"TOK123\"/>"⟩)
  exact h.2.2.2 ⟨200, "<input id=\"webtoken\" value=\"TOK123\"/>"⟩ "TOK123"
    rfl (by decide) rfl

/-- Claim C4 evaluated at the failing input: a status-probe response with
status 404 makes `async_get_door_status` raise (the `assert` in
`HttpClient.async_get` fires and nothing catches it) instead of logging
and returning UNKNOWN as the claim, the dead handling branch inside
`async_get_door_status` itself, and the earlier `core.py` implementation
all state. -/
theorem C4_status_probe_raises :
    async_get_door_status (some ⟨404, "Not Found"⟩) =
      Except.error PyErr.assertionError := rfl

/-- Claim C5 evaluated on a fresh client: `__init__` never assigns
`__current_page_content` (it is only annotated at class level), so reading
`udi` or `is_admin` before a successful authenticate raises
`AttributeError` instead of returning the `None` that the claim and the
properties' own `is None` checks intend. -/
theorem C5_fresh_properties_raise :
    udi initState = Except.error PyErr.attributeError ∧
    is_admin initState = Except.error PyErr.attributeError :=
  ⟨rfl, rfl⟩

/-- Claim C6: on every reachable session state whose administrator rights
are not established, `async_get_device_info` returns `None` without
issuing the device-info request. -/
theorem C6_device_info_requires_admin (st : ClientState)
    (get : Option HttpResponse) (hre : Reachable st)
    (hnot : is_admin st ≠ Except.ok (some true)) :
    async_get_device_info st get = (none, 0) := by
  cases hc : st.current_page_content with
  | none => simp [async_get_device_info, is_admin, hc]
  | some oc =>
    cases oc with
    | none => exact absurd hc (reachable_content_ne_pynone st hre)
    | some content =>
      cases hb : re_user_is_admin_matches content with
      | true => exact absurd (by simp [is_admin, hc, hb]) hnot
      | false => simp [async_get_device_info, is_admin, hc, hb]

/-- Witness for C6 at a concrete state: a fresh client (where reading
`is_admin` raises, which `async_get_device_info` catches) gets `None`
and no request is issued. -/
theorem C6_witness : async_get_device_info initState none = (none, 0) :=
  C6_device_info_requires_admin initState none Reachable.init
    (fun h => Except.noConfusion h)

/-- The polling loop hits the awaited state within its budget of polls
exactly when some poll with index below the budget returns that state. -/
theorem wait_loop_true_iff (poll : Nat → DoorStatusType)
    (state : DoorStatusType) :
    ∀ budget k, async_wait_for_state_loop poll state k budget = true ↔
      ∃ j, j < budget ∧ poll (k + j) = state := by
  intro budget
  induction budget with
  | zero => intro k; simp [async_wait_for_state_loop]
  | succ m ih =>
    intro k
    by_cases h : poll k = state
    · simp only [async_wait_for_state_loop, h, if_true, true_iff]
      exact ⟨0, Nat.succ_pos m, by simpa using h⟩
    · rw [show async_wait_for_state_loop poll state k (m + 1) =
          async_wait_for_state_loop poll state (k + 1) m from by
        simp [async_wait_for_state_loop, h]]
      rw [ih (k + 1)]
      constructor
      · rintro ⟨j, hj, hp⟩
        refine ⟨j + 1, by omega, ?_⟩
        have he : k + (j + 1) = k + 1 + j := by omega
        rw [he]; exact hp
      · rintro ⟨j, hj, hp⟩
        cases j with
        | zero => rw [Nat.add_zero] at hp; exact absurd hp h
        | succ j' =>
          refine ⟨j', by omega, ?_⟩
          have he : k + 1 + j' = k + (j' + 1) := by omega
          rw [he]; exact hp

/-- Claim C7: `async_wait_for_door_state` polls repeatedly (poll `k` runs
`k * CHECK_DOOR_STATE_INTERVAL` seconds into the wait) and returns true
exactly when some poll within the budget allowed by the timeout returns
the awaited state, and the boolean false — not a raised error — exactly
when every poll before the timeout misses it. -/
theorem C7_wait_for_door_state_iff (poll : Nat → DoorStatusType)
    (state : DoorStatusType) (budget : Nat) :
    (async_wait_for_door_state poll state budget = true ↔
      ∃ k, k < budget ∧ poll k = state) ∧
    (async_wait_for_door_state poll state budget = false ↔
      ∀ k, k < budget → poll k ≠ state) := by
  have h := wait_loop_true_iff poll state budget 0
  simp only [Nat.zero_add] at h
  have h' : async_wait_for_door_state poll state budget = true ↔
      ∃ k, k < budget ∧ poll k = state := h
  refine ⟨h', ?_⟩
  constructor
  · intro hf k hk hp
    have ht := h'.mpr ⟨k, hk, hp⟩
    rw [hf] at ht
    exact Bool.noConfusion ht
  · intro hall
    cases hb : async_wait_for_door_state poll state budget with
    | false => rfl
    | true =>
      obtain ⟨k, hk, hp⟩ := h'.mp hb
      exact absurd hp (hall k hk)

/-- Counterexample to claim C8 as stated: from the reachable initial state
(no authenticate has ever succeeded, `__current_token` is `None`) a door
toggle without an override token still issues one toggle request, with
the Python `None` rendered into the URL as the literal `"None"`. -/
theorem C8_counterexample :
    Reachable initState ∧ initState.current_token = none ∧
    (async_toogle_door_position initState 2 none (some ⟨200, "OK"⟩)).2 =
      [⟨2, "None"⟩] :=
  ⟨Reachable.init, rfl, rfl⟩

/-- Claim C8 amended: a toggle request is always attempted — exactly one
per call — and carries the override token when supplied and otherwise the
session's stored token, with an absent token rendered as the literal
string `"None"`; the client itself never rejects a toggle on a token-less
session, so holding a token is a caller obligation. -/
theorem C8_toggle_token_source (st : ClientState) (door_id : Nat)
    (token : Option String) (resp : Option HttpResponse) :
    (async_toogle_door_position st door_id token resp).2 =
      [⟨door_id, pyStr (match token with
        | some t => some t
        | none => st.current_token)⟩] ∧
    (async_toogle_door_position st door_id token resp).2.length = 1 := by
  cases token <;> cases h : HttpClient_async_get resp <;>
    simp [async_toogle_door_position, h]

/-- Claim C9: when the status query yields UNKNOWN, `async_door_action`
never takes the idempotent early return (UNKNOWN equals no action
target); it issues exactly one toggle request and its result is the
toggle's result. -/
theorem C9_unknown_status_always_toggles (st : ClientState) (door_id : Nat)
    (action : DoorActionType) (token : Option String)
    (probe toggleResp : Option HttpResponse)
    (h : async_get_door_status probe = Except.ok DoorStatusType.UNKNOWN) :
    (∀ a, door_action_to_status_switcher a ≠ DoorStatusType.UNKNOWN) ∧
    async_door_action st door_id action token probe toggleResp =
      async_toogle_door_position st door_id token toggleResp ∧
    (async_door_action st door_id action token probe toggleResp).2.length = 1 := by
  have hmap : ∀ a, door_action_to_status_switcher a ≠ DoorStatusType.UNKNOWN := by
    intro a; cases a <;> simp [door_action_to_status_switcher]
  have hne : DoorStatusType.UNKNOWN ≠ door_action_to_status_switcher action :=
    Ne.symm (hmap action)
  have hact : async_door_action st door_id action token probe toggleResp =
      async_toogle_door_position st door_id token toggleResp := by
    simp [async_door_action, h, hne]
  refine ⟨hmap, hact, ?_⟩
  rw [hact]
  cases htr : HttpClient_async_get toggleResp <;>
    simp [async_toogle_door_position, htr]

/-- Witness for C9 at concrete inputs: an unrecognized probe body gives
UNKNOWN and the action reduces to the toggle call. -/
theorem C9_witness :
    async_door_action initState 2 DoorActionType.OPEN none
        (some ⟨200, "NOPE"⟩) (some ⟨200, "OK"⟩) =
      async_toogle_door_position initState 2 none (some ⟨200, "OK"⟩) :=
  (C9_unknown_status_always_toggles initState 2 DoorActionType.OPEN none
    (some ⟨200, "NOPE"⟩) (some ⟨200, "OK"⟩) rfl).2.1

/-- Claim C10: when the login POST succeeds but no token can be extracted,
the session state is still mutated — the stored page content becomes the
new response body and the stored token becomes `None` — although the
returned result has success `false`; `udi`, `is_admin` and `get_doors`
subsequently observe the new page content. -/
theorem C10_failed_extraction_mutates_state (st : ClientState)
    (r : HttpResponse) (hs : 400 > r.status)
    (he : extract_web_token r.body = none) :
    async_authenticate st (some r) =
      (⟨false, none, some r.body⟩, ⟨none, some (some r.body)⟩) ∧
    udi (async_authenticate st (some r)).2 = Except.ok (re_udi_search r.body) ∧
    is_admin (async_authenticate st (some r)).2 =
      Except.ok (some (re_user_is_admin_matches r.body)) ∧
    get_doors (async_authenticate st (some r)).2 =
      Except.ok (get_doors_from_page_content r.body) := by
  have h : async_authenticate st (some r) =
      (⟨false, none, some r.body⟩, ⟨none, some (some r.body)⟩) := by
    simp [async_authenticate, HttpClient_async_post, hs, he]
  refine ⟨h, ?_, ?_, ?_⟩ <;> rw [h] <;> rfl

/-- Witness for C10 at concrete inputs: a session that held an old token
and page loses both to a success response without a token. -/
theorem C10_witness :
    async_authenticate ⟨some "OLDTOKEN", some (some "OLDPAGE")⟩
        (some ⟨200, "nope"⟩) =
      (⟨false, none, some "nope"⟩, ⟨none, some (some "nope")⟩) :=
  (C10_failed_extraction_mutates_state ⟨some "OLDTOKEN", some (some "OLDPAGE")⟩
    ⟨200, "nope"⟩ (by decide) rfl).1

end Somweb
